import Mathlib

/-!
Shallow embedding of the altarFunds mobile-money payment engine
(`src/payments/models.py` and `src/payments/services.py`), together with
theorems settling the specification claims about it.

Conventions of the embedding:
* JSON payloads decoded from provider requests/responses are modelled by `JVal`
  (Python `dict` / `list` / `str` / `int` / `bool` / `None`; the payloads this
  engine handles carry no floats).
* Timestamps are `Nat` seconds; `timezone.now()` becomes an explicit `now`
  argument threaded through each operation, and `timedelta(minutes=m)` becomes
  `60 * m` seconds.
* Django model rows become structures; `obj.save()` becomes returning the
  updated structure.  Monetary `Decimal` amounts are `Int` (the engine never
  divides them).
* Network calls (`MpesaService.stk_push`, `transaction_status`) are modelled by
  passing the provider's decoded JSON response as an argument: each embedded
  service function describes what the code does once a transport-level response
  is in hand.
-/

namespace AltarFunds

mutual

/-- A JSON value as decoded by Python's `json` module from the payloads this
engine exchanges with the provider (no floats occur in them). -/
inductive JVal where
  | jnull : JVal
  | jbool : Bool → JVal
  | jint : Int → JVal
  | jstr : String → JVal
  | jarr : JArr → JVal
  | jobj : JObj → JVal
deriving DecidableEq

/-- A decoded JSON array (Python `list`). -/
inductive JArr where
  | nil : JArr
  | cons : JVal → JArr → JArr
deriving DecidableEq

/-- A decoded JSON object (Python `dict`), as a sequence of key bindings. -/
inductive JObj where
  | nil : JObj
  | cons : String → JVal → JObj → JObj
deriving DecidableEq

end

/-- Build a JSON array value from a list. -/
def JVal.arrOf (xs : List JVal) : JVal :=
  .jarr (xs.foldr .cons .nil)

/-- Build a JSON object value from a key-binding list. -/
def JVal.objOf (xs : List (String × JVal)) : JVal :=
  .jobj (xs.foldr (fun p o => .cons p.1 p.2 o) .nil)

/-- Lookup in a decoded JSON object: the first binding for the key wins. -/
def JObj.getD (o : JObj) (k : String) (d : JVal) : JVal :=
  match o with
  | .nil => d
  | .cons k1 v rest => if k1 == k then v else rest.getD k d

/-- Key membership in a decoded JSON object. -/
def JObj.hasKey (o : JObj) (k : String) : Bool :=
  match o with
  | .nil => false
  | .cons k1 _ rest => k1 == k || rest.hasKey k

/-- The elements of a decoded JSON array, as a list. -/
def JArr.toList : JArr → List JVal
  | .nil => []
  | .cons x rest => x :: rest.toList

/-- Python `d.get(k, default)` on a decoded JSON value; call sites in the
source only apply `.get` to dicts. -/
def JVal.getD (v : JVal) (k : String) (d : JVal) : JVal :=
  match v with
  | .jobj o => o.getD k d
  | _ => d

/-- Python `k in d`. -/
def JVal.hasKey (v : JVal) (k : String) : Bool :=
  match v with
  | .jobj o => o.hasKey k
  | _ => false

/-- The string a `CharField` assignment stores; the payload positions the
source reads this way carry strings. -/
def JVal.asStrD (v : JVal) (d : String) : String :=
  match v with
  | .jstr s => s
  | _ => d

/-- Python `d.get(k, default)` read into a string field. -/
def JVal.getStrD (v : JVal) (k : String) (d : String) : String :=
  (v.getD k (JVal.jstr d)).asStrD d

/-- Python iteration over a decoded JSON array; the loop in the source runs
over `CallbackMetadata.Item`, which is a list when present and defaulted to
`[]` when absent. -/
def JVal.asArrD (v : JVal) : List JVal :=
  match v with
  | .jarr xs => xs.toList
  | _ => []

/-- Python `x == 0` on a decoded JSON value: `bool` is an `int` subclass, so
`False == 0` is `True`; strings, `None`, lists and dicts never equal `0`. -/
def pyEqZero : JVal → Bool
  | .jint n => n == 0
  | .jbool b => b == false
  | _ => false

/-- Modelled from the spec: `giving/models.py` (class `GivingTransaction` with
`mark_completed`, `mark_failed`, `refund` and fields `status`, `amount`,
`payment_method`) is not under `src/`; only its callers in `src/payments` are.
Spec §6 documents the ledger calls `markTransactionCompleted(id,
providerReceipt)`, `markTransactionFailed(id, reason)` and
`markTransactionRefunded(id, amount, reason)` and requires each to be
idempotent ("calling twice with the same receipt/reason is safe"), so they are
modelled as plain status/field setters. -/
structure GivingTransaction where
  status : String
  amount : Int
  payment_method : String
  provider_receipt : JVal
  failure_reason : JVal
  refunded_amount : Int
  refund_reason : String
deriving DecidableEq

/-- Modelled from the spec: `markTransactionCompleted(id, providerReceipt)`. -/
def GivingTransaction.mark_completed (t : GivingTransaction) (receipt : JVal) :
    GivingTransaction :=
  { t with status := "completed", provider_receipt := receipt }

/-- Modelled from the spec: `markTransactionFailed(id, reason)`. -/
def GivingTransaction.mark_failed (t : GivingTransaction) (reason : JVal) :
    GivingTransaction :=
  { t with status := "failed", failure_reason := reason }

/-- Modelled from the spec: `markTransactionRefunded(id, amount, reason)`. -/
def GivingTransaction.refund (t : GivingTransaction) (amount : Int)
    (reason : String) : GivingTransaction :=
  { t with status := "refunded", refunded_amount := amount,
           refund_reason := reason }

/-- The mutable columns of `payments.models.PaymentRequest` the engine reads
or writes (identity and tenant foreign keys are carried by the row's position
in the store). -/
structure PaymentRequest where
  status : String
  amount : Int
  phone_number : String
  account_reference : String
  transaction_desc : String
  checkout_request_id : String
  merchant_request_id : String
  response_code : String
  response_message : String
  callback_received : Bool
  callback_data : Option JVal
  callback_received_at : Option Nat
  processing_started_at : Option Nat
  processing_completed_at : Option Nat
  retry_count : Nat
  max_retries : Nat
  next_retry_at : Option Nat
deriving DecidableEq

/-- `PaymentRequest.mark_processing` (models.py:243). -/
def PaymentRequest.mark_processing (r : PaymentRequest) (now : Nat) :
    PaymentRequest :=
  { r with status := "processing", processing_started_at := some now }

/-- `PaymentRequest.mark_completed` (models.py:251). -/
def PaymentRequest.mark_completed (r : PaymentRequest) (response_data : JVal)
    (now : Nat) : PaymentRequest :=
  { r with status := "completed",
           processing_completed_at := some now,
           checkout_request_id := response_data.getStrD "CheckoutRequestID" "",
           merchant_request_id := response_data.getStrD "MerchantRequestID" "",
           response_code := response_data.getStrD "ResponseCode" "",
           response_message := response_data.getStrD "ResponseMessage" "" }

/-- `PaymentRequest.mark_failed` (models.py:263). -/
def PaymentRequest.mark_failed (r : PaymentRequest) (response_data : JVal)
    (now : Nat) : PaymentRequest :=
  { r with status := "failed",
           processing_completed_at := some now,
           response_code := response_data.getStrD "ResponseCode" "",
           response_message := response_data.getStrD "ResponseMessage" "" }

/-- `PaymentRequest.record_callback` (models.py:273). -/
def PaymentRequest.record_callback (r : PaymentRequest) (callback_data : JVal)
    (now : Nat) : PaymentRequest :=
  { r with callback_received := true,
           callback_data := some callback_data,
           callback_received_at := some now }

/-- `PaymentRequest.can_retry` (models.py:282). -/
def PaymentRequest.can_retry (r : PaymentRequest) : Bool :=
  (r.status == "failed" || r.status == "expired") &&
    r.retry_count < r.max_retries

/-- The `retry_delays` list of `PaymentRequest.schedule_retry`
(models.py:297), in minutes. -/
def retryDelays : List Nat := [1, 5, 15]

/-- `PaymentRequest.schedule_retry` (models.py:289): increment `retry_count`,
pick the backoff delay `retry_delays[min(retry_count - 1, len(retry_delays) -
1)]` (with the already incremented count), set `next_retry_at` and return the
row to `pending`. -/
def PaymentRequest.schedule_retry (r : PaymentRequest) (now : Nat) :
    PaymentRequest :=
  let rc := r.retry_count + 1
  let delay_minutes := retryDelays.getD (min (rc - 1) (retryDelays.length - 1)) 0
  { r with retry_count := rc,
           next_retry_at := some (now + 60 * delay_minutes),
           status := "pending" }

/-- The mutable columns of `payments.models.PaymentCallback` the engine reads
or writes. -/
structure PaymentCallback where
  provider : String
  callback_type : String
  transaction_id : String
  raw_data : JVal
  processed_data : Option JVal
  is_valid : Bool
  validation_errors : String
  status : String
  processed_at : Option Nat
deriving DecidableEq

/-- `PaymentCallback.mark_processed` (models.py:450). -/
def PaymentCallback.mark_processed (c : PaymentCallback) (processed_data : JVal)
    (now : Nat) : PaymentCallback :=
  { c with status := "processed",
           processed_data := some processed_data,
           processed_at := some now }

/-- The mutable columns of `payments.models.PaymentReversal` the engine reads
or writes. -/
structure PaymentReversal where
  reversal_id : String
  reversal_type : String
  amount : Int
  reason : String
  status : String
  reversal_transaction_id : String
  processor_response : String
  processed_at : Option Nat
deriving DecidableEq

/-- `PaymentReversal.mark_completed` (models.py:582). -/
def PaymentReversal.mark_completed (rv : PaymentReversal)
    (reversal_transaction_id : String) (now : Nat) : PaymentReversal :=
  { rv with status := "completed",
            reversal_transaction_id := reversal_transaction_id,
            processed_at := some now }

/-- `PaymentReversal.mark_failed` (models.py:591). -/
def PaymentReversal.mark_failed (rv : PaymentReversal)
    (processor_response : String) (now : Nat) : PaymentReversal :=
  { rv with status := "failed",
            processor_response := processor_response,
            processed_at := some now }

/-- The rows `MpesaPaymentService.process_payment_callback` touches: the
callback together with its linked payment request and giving transaction
(`callback.payment_request`, `callback.giving_transaction`). -/
structure CallbackCtx where
  callback : PaymentCallback
  request : PaymentRequest
  txn : GivingTransaction
deriving DecidableEq

/-- The four accumulators of the metadata loop in
`MpesaPaymentService.process_payment_callback` (services.py:413-426). -/
structure StkMetadata where
  amount : JVal
  mpesa_receipt : JVal
  phone_number : JVal
  transaction_date : JVal
deriving DecidableEq

/-- One iteration of the `for item in metadata` loop (services.py:418-426). -/
def parseMetadataItem (acc : StkMetadata) (item : JVal) : StkMetadata :=
  if item.getD "Name" .jnull == .jstr "Amount" then
    { acc with amount := item.getD "Value" (.jint 0) }
  else if item.getD "Name" .jnull == .jstr "MpesaReceiptNumber" then
    { acc with mpesa_receipt := item.getD "Value" (.jstr "") }
  else if item.getD "Name" .jnull == .jstr "PhoneNumber" then
    { acc with phone_number := item.getD "Value" (.jstr "") }
  else if item.getD "Name" .jnull == .jstr "TransactionDate" then
    { acc with transaction_date := item.getD "Value" (.jstr "") }
  else
    acc

/-- `MpesaPaymentService.process_payment_callback` (services.py:398-465):
extract `STKCallback.ResultCode`/`ResultDesc` and the metadata items from the
stored `raw_data`; on `result_code == 0` mark the giving transaction completed
with the M-Pesa receipt, record the callback on the payment request and mark
the callback processed; otherwise mark the giving transaction failed with
`ResultDesc` and mark the callback processed with the failure summary. -/
def MpesaPaymentService.process_payment_callback (s : CallbackCtx) (now : Nat) :
    CallbackCtx :=
  let callback_data := s.callback.raw_data
  let stk_callback := callback_data.getD "STKCallback" (JVal.objOf [])
  let result_code := stk_callback.getD "ResultCode" .jnull
  let result_desc := stk_callback.getD "ResultDesc" .jnull
  let metadata :=
    ((stk_callback.getD "CallbackMetadata" (JVal.objOf [])).getD "Item"
      (JVal.arrOf [])).asArrD
  let m := metadata.foldl parseMetadataItem
    ⟨.jint 0, .jstr "", .jstr "", .jstr ""⟩
  if pyEqZero result_code then
    { callback := s.callback.mark_processed (JVal.objOf
        [("status", .jstr "success"),
         ("amount", m.amount),
         ("mpesa_receipt", m.mpesa_receipt),
         ("phone_number", m.phone_number),
         ("transaction_date", m.transaction_date)]) now,
      request := s.request.record_callback callback_data now,
      txn := s.txn.mark_completed m.mpesa_receipt }
  else
    { callback := s.callback.mark_processed (JVal.objOf
        [("status", .jstr "failed"),
         ("result_code", result_code),
         ("result_desc", result_desc)]) now,
      request := s.request,
      txn := s.txn.mark_failed result_desc }

/-- `MpesaPaymentService.process_stk_push` (services.py:357-396), given the
provider's decoded transport-level response to the STK push: mark the request
processing, then on `ResponseCode == '0'` mark the request completed (storing
the correlation ids from the response) and set the giving transaction to
`processing`; otherwise mark the request failed and the giving transaction
failed with `ResponseMessage`. -/
def MpesaPaymentService.process_stk_push (req : PaymentRequest)
    (txn : GivingTransaction) (response : JVal) (now : Nat) :
    PaymentRequest × GivingTransaction :=
  let req1 := req.mark_processing now
  if response.getD "ResponseCode" .jnull == .jstr "0" then
    (req1.mark_completed response now, { txn with status := "processing" })
  else
    (req1.mark_failed response now,
     txn.mark_failed (response.getD "ResponseMessage" (.jstr "Unknown error")))

/-- `PaymentService.retry_payment` (services.py:286-315): reject with
`AltarFundsException` unless `can_retry()`, otherwise `schedule_retry()` and
immediately re-run the STK push for M-Pesa transactions. -/
def PaymentService.retry_payment (req : PaymentRequest)
    (txn : GivingTransaction) (response : JVal) (now : Nat) :
    Except String (PaymentRequest × GivingTransaction) :=
  if !req.can_retry then
    .error "Payment cannot be retried"
  else
    let req1 := req.schedule_retry now
    if txn.payment_method == "mpesa" then
      .ok (MpesaPaymentService.process_stk_push req1 txn response now)
    else
      .ok (req1, txn)

/-- `MpesaPaymentService.process_reversal` (services.py:467-487): mark the
reversal completed with reference `REV_<reversal_id>` and apply `refund` to
the original transaction. -/
def MpesaPaymentService.process_reversal (rv : PaymentReversal)
    (txn : GivingTransaction) (now : Nat) :
    PaymentReversal × GivingTransaction :=
  let rv1 := rv.mark_completed ("REV_" ++ rv.reversal_id) now
  (rv1, txn.refund rv1.amount rv1.reason)

/-- The reversal rows of one giving transaction, as read by the reversal
workflow. -/
structure ReversalCtx where
  txn : GivingTransaction
  reversals : List PaymentReversal
deriving DecidableEq

/-- Sum of the amounts of `completed` reversals of a transaction (the quantity
the spec's reversal invariant bounds by the original amount). -/
def completedReversalSum (rs : List PaymentReversal) : Int :=
  ((rs.filter (fun r => r.status == "completed")).map
    (fun r => r.amount)).sum

/-- `PaymentService.reverse_payment` (services.py:317-351): create a `pending`
refund `PaymentReversal` for the given amount and, for M-Pesa transactions,
immediately process it; `rid` stands for the generated `uuid4` identifier. -/
def PaymentService.reverse_payment (ctx : ReversalCtx) (amount : Int)
    (reason : String) (rid : String) (now : Nat) : ReversalCtx :=
  let rv : PaymentReversal :=
    { reversal_id := rid,
      reversal_type := "refund",
      amount := amount,
      reason := reason,
      status := "pending",
      reversal_transaction_id := "",
      processor_response := "",
      processed_at := none }
  if ctx.txn.payment_method == "mpesa" then
    let (rv1, txn1) := MpesaPaymentService.process_reversal rv ctx.txn now
    { txn := txn1, reversals := rv1 :: ctx.reversals }
  else
    { ctx with reversals := rv :: ctx.reversals }

/-- The durable store the ingestor and schedulers touch: payment requests
(each paired with its giving transaction) and the persisted callback rows. -/
structure EngineDB where
  rows : List (PaymentRequest × GivingTransaction)
  callbacks : List PaymentCallback
deriving DecidableEq

/-- The correlation lookup of `PaymentService.process_callback`
(services.py:258-262): when the payload carries `CheckoutRequestID`, the index
of the first `PaymentRequest` whose stored `checkout_request_id` equals it.  A
non-string payload value matches no `CharField` row. -/
def correlateRequest (rows : List (PaymentRequest × GivingTransaction))
    (callback_data : JVal) : Option Nat :=
  if callback_data.hasKey "CheckoutRequestID" then
    match callback_data.getD "CheckoutRequestID" .jnull with
    | .jstr cid => rows.findIdx? (fun row => row.1.checkout_request_id == cid)
    | _ => none
  else
    none

/-- `PaymentService.process_callback` (services.py:239-284): create the
`PaymentCallback` row first (write-ahead), set `is_valid = True` for the
M-Pesa provider ("M-Pesa doesn't use signatures"), then correlate by
`CheckoutRequestID`; with no match, mark the row `invalid` and return it; with
a match, link the row and run the M-Pesa settlement on it.  Returns the
updated store and the callback row the view receives. -/
def PaymentService.process_callback (db : EngineDB) (callback_data : JVal)
    (provider : String) (now : Nat) : EngineDB × PaymentCallback :=
  let cb : PaymentCallback :=
    { provider := provider,
      callback_type := "payment_confirmation",
      transaction_id := callback_data.getStrD "TransactionID" "",
      raw_data := callback_data,
      processed_data := none,
      is_valid := false,
      validation_errors := "",
      status := "received",
      processed_at := none }
  let cb := if provider == "mpesa" then { cb with is_valid := true } else cb
  match correlateRequest db.rows callback_data with
  | none =>
    let cb := { cb with status := "invalid",
                        validation_errors := "No matching payment request found" }
    ({ db with callbacks := cb :: db.callbacks }, cb)
  | some i =>
    match db.rows.get? i with
    | some row =>
      if provider == "mpesa" then
        let ctx := MpesaPaymentService.process_payment_callback
          ⟨cb, row.1, row.2⟩ now
        ({ rows := db.rows.set i (ctx.request, ctx.txn),
           callbacks := ctx.callback :: db.callbacks }, ctx.callback)
      else
        ({ db with callbacks := cb :: db.callbacks }, cb)
    | none =>
      ({ db with callbacks := cb :: db.callbacks }, cb)

/-- The body of the loop of `PaymentSchedulerService.process_pending_payments`
(services.py:493-509) for one row, with the queryset filter `status='pending',
next_retry_at__lte=now` applied per row: a selected row is retried through
`PaymentService.retry_payment`, whose exception the sweep catches and logs
(leaving the row as it was). -/
def PaymentSchedulerService.processPendingStep (now : Nat) (response : JVal)
    (row : PaymentRequest × GivingTransaction) :
    PaymentRequest × GivingTransaction :=
  if row.1.status == "pending" &&
      (match row.1.next_retry_at with
       | some t => decide (t ≤ now)
       | none => false) then
    match PaymentService.retry_payment row.1 row.2 response now with
    | .ok updated => updated
    | .error _ => row
  else
    row

/-- `PaymentSchedulerService.process_pending_payments` (services.py:493-509)
over the store. -/
def PaymentSchedulerService.process_pending_payments (now : Nat)
    (response : JVal) (rows : List (PaymentRequest × GivingTransaction)) :
    List (PaymentRequest × GivingTransaction) :=
  rows.map (PaymentSchedulerService.processPendingStep now response)

/-- The body of the loop of `PaymentSchedulerService.check_transaction_status`
(services.py:511-543) for one row, given the provider's decoded status-query
response.  The queryset filter `processing_started_at__lte = now - 30 minutes`
is `t + 1800 ≤ now` in seconds.  On `ResultCode == '0'` the giving transaction
is marked completed with `MpesaReceiptNumber`, otherwise marked failed with
`ResultDesc`; the payment request row itself is not written. -/
def PaymentSchedulerService.checkStatusStep (now : Nat) (response : JVal)
    (row : PaymentRequest × GivingTransaction) :
    PaymentRequest × GivingTransaction :=
  if row.1.status == "processing" &&
      (match row.1.processing_started_at with
       | some t => decide (t + 1800 ≤ now)
       | none => false) then
    if response.getD "ResultCode" .jnull == .jstr "0" then
      (row.1, row.2.mark_completed (response.getD "MpesaReceiptNumber" (.jstr "")))
    else
      (row.1, row.2.mark_failed (response.getD "ResultDesc" (.jstr "Transaction failed")))
  else
    row

/-- `PaymentSchedulerService.check_transaction_status` (services.py:511-543)
over the store. -/
def PaymentSchedulerService.check_transaction_status (now : Nat)
    (response : JVal) (rows : List (PaymentRequest × GivingTransaction)) :
    List (PaymentRequest × GivingTransaction) :=
  rows.map (PaymentSchedulerService.checkStatusStep now response)

/-- One engine operation on a payment request and its giving transaction: the
service-level entry points of `payments/services.py` that touch these rows. -/
inductive EngineOp where
  | push : JVal → Nat → EngineOp
  | retryOp : JVal → Nat → EngineOp
  | settleCallback : PaymentCallback → Nat → EngineOp
  | reconcile : JVal → Nat → EngineOp
deriving DecidableEq

/-- Apply one engine operation (the `retryOp` rejection leaves the row
unchanged, as both its callers do: the sweep catches the exception and the
retry view returns 400 before any write). -/
def engineStep (s : PaymentRequest × GivingTransaction) :
    EngineOp → PaymentRequest × GivingTransaction
  | .push response now =>
    MpesaPaymentService.process_stk_push s.1 s.2 response now
  | .retryOp response now =>
    match PaymentService.retry_payment s.1 s.2 response now with
    | .ok updated => updated
    | .error _ => s
  | .settleCallback cb now =>
    let ctx := MpesaPaymentService.process_payment_callback ⟨cb, s.1, s.2⟩ now
    (ctx.request, ctx.txn)
  | .reconcile response now =>
    PaymentSchedulerService.checkStatusStep now response s

/-- Apply a sequence of engine operations. -/
def engineRun (s : PaymentRequest × GivingTransaction) :
    List EngineOp → PaymentRequest × GivingTransaction :=
  List.foldl engineStep s

/-- A fresh giving transaction awaiting payment (M-Pesa method, amount 500). -/
def sampleTxn : GivingTransaction :=
  { status := "pending",
    amount := 500,
    payment_method := "mpesa",
    provider_receipt := .jnull,
    failure_reason := .jnull,
    refunded_amount := 0,
    refund_reason := "" }

/-- A freshly created payment request (model defaults of
`payments.models.PaymentRequest`). -/
def sampleRequest : PaymentRequest :=
  { status := "pending",
    amount := 500,
    phone_number := "+254700000001",
    account_reference := "TX1",
    transaction_desc := "AltarFunds - Tithe",
    checkout_request_id := "",
    merchant_request_id := "",
    response_code := "",
    response_message := "",
    callback_received := false,
    callback_data := none,
    callback_received_at := none,
    processing_started_at := none,
    processing_completed_at := none,
    retry_count := 0,
    max_retries := 3,
    next_retry_at := none }

/-- A transport-level STK push acceptance from the provider. -/
def acceptResponse : JVal :=
  JVal.objOf
    [("ResponseCode", .jstr "0"),
     ("CheckoutRequestID", .jstr "CRQ1"),
     ("MerchantRequestID", .jstr "MRQ1"),
     ("ResponseMessage", .jstr "Success. Request accepted for processing")]

/-- A business-level STK push rejection from the provider. -/
def rejectResponse : JVal :=
  JVal.objOf
    [("ResponseCode", .jstr "1"),
     ("ResponseMessage", .jstr "Insufficient funds")]

/-- A pending request whose scheduled retry time has come. -/
def dueRequest : PaymentRequest :=
  { sampleRequest with retry_count := 1, next_retry_at := some 0 }

/-- A request that went out with correlation id `CRQ1` and awaits its
callback. -/
def matchedRequest : PaymentRequest :=
  { sampleRequest with status := "processing",
                       checkout_request_id := "CRQ1",
                       processing_started_at := some 0 }

/-- The giving transaction of `matchedRequest` while the push is in flight. -/
def processingTxn : GivingTransaction :=
  { sampleTxn with status := "processing" }

/-- A well-formed successful M-Pesa callback payload for `CRQ1`. -/
def successPayload : JVal :=
  JVal.objOf
    [("CheckoutRequestID", .jstr "CRQ1"),
     ("STKCallback", JVal.objOf
       [("ResultCode", .jint 0),
        ("ResultDesc", .jstr "The service request is processed successfully."),
        ("CallbackMetadata", JVal.objOf
          [("Item", JVal.arrOf
            [JVal.objOf [("Name", .jstr "Amount"), ("Value", .jint 500)],
             JVal.objOf [("Name", .jstr "MpesaReceiptNumber"),
                         ("Value", .jstr "MPE123")],
             JVal.objOf [("Name", .jstr "PhoneNumber"),
                         ("Value", .jint 254700000001)],
             JVal.objOf [("Name", .jstr "TransactionDate"),
                         ("Value", .jint 20260101120000)]])])])]

/-- A failed M-Pesa callback payload for `CRQ1` (result code 1032). -/
def cancelPayload : JVal :=
  JVal.objOf
    [("CheckoutRequestID", .jstr "CRQ1"),
     ("STKCallback", JVal.objOf
       [("ResultCode", .jint 1032),
        ("ResultDesc", .jstr "Request cancelled by user")])]

/-- A payload that correlates to `CRQ1` but is missing the required
`STKCallback` object. -/
def noStkPayload : JVal :=
  JVal.objOf [("CheckoutRequestID", .jstr "CRQ1")]

/-- A payload whose `ResultCode` is the JSON boolean `false` rather than the
integer `0`. -/
def boolFalsePayload : JVal :=
  JVal.objOf
    [("CheckoutRequestID", .jstr "CRQ1"),
     ("STKCallback", JVal.objOf
       [("ResultCode", .jbool false),
        ("ResultDesc", .jstr "odd result code")])]

/-- A `PaymentCallback` row as created by ingestion for the given raw payload
(after the unconditional M-Pesa `is_valid = True` write). -/
def receivedCallback (raw : JVal) : PaymentCallback :=
  { provider := "mpesa",
    callback_type := "payment_confirmation",
    transaction_id := "",
    raw_data := raw,
    processed_data := none,
    is_valid := true,
    validation_errors := "",
    status := "received",
    processed_at := none }

/-- The store at the moment the `CRQ1` callback arrives. -/
def sampleDB : EngineDB :=
  { rows := [(matchedRequest, processingTxn)], callbacks := [] }

/-- The settlement step keeps the callback's `raw_data` verbatim (only
`mark_processed` fields are written). -/
theorem process_payment_callback_raw_data (s : CallbackCtx) (now : Nat) :
    (MpesaPaymentService.process_payment_callback s now).callback.raw_data =
      s.callback.raw_data := by
  unfold MpesaPaymentService.process_payment_callback
  dsimp only
  split <;> rfl

/-- The settlement step keeps the callback's `is_valid` flag. -/
theorem process_payment_callback_is_valid (s : CallbackCtx) (now : Nat) :
    (MpesaPaymentService.process_payment_callback s now).callback.is_valid =
      s.callback.is_valid := by
  unfold MpesaPaymentService.process_payment_callback
  dsimp only
  split <;> rfl

/-- The settlement step always ends with the callback `processed`. -/
theorem process_payment_callback_status (s : CallbackCtx) (now : Nat) :
    (MpesaPaymentService.process_payment_callback s now).callback.status =
      "processed" := by
  unfold MpesaPaymentService.process_payment_callback
  dsimp only
  split <;> rfl

/-- C1: re-running `MpesaPaymentService.process_payment_callback` on the rows
it has already settled (the callback is then stored as `processed`) leaves the
underlying giving transaction in the same state as after the first run and
reproduces the same processed result, so no financial effect is applied twice
(idempotence law of the settlement step). -/
theorem C1_settlement_idempotent (s : CallbackCtx) (t1 t2 : Nat) :
    (MpesaPaymentService.process_payment_callback
        (MpesaPaymentService.process_payment_callback s t1) t2).txn =
      (MpesaPaymentService.process_payment_callback s t1).txn ∧
    (MpesaPaymentService.process_payment_callback s t1).callback.status =
      "processed" ∧
    (MpesaPaymentService.process_payment_callback
        (MpesaPaymentService.process_payment_callback s t1) t2).callback.processed_data =
      (MpesaPaymentService.process_payment_callback s t1).callback.processed_data := by
  refine ⟨?_, process_payment_callback_status s t1, ?_⟩ <;>
  · unfold MpesaPaymentService.process_payment_callback
    dsimp only
    by_cases h : pyEqZero ((s.callback.raw_data.getD "STKCallback"
        (JVal.objOf [])).getD "ResultCode" JVal.jnull) = true <;>
      simp [h, PaymentCallback.mark_processed, PaymentRequest.record_callback,
        GivingTransaction.mark_completed, GivingTransaction.mark_failed]

/-- C2 counterexample: at a concrete pending request and a concrete
transport-level acceptance (`ResponseCode = '0'`), `process_stk_push` puts
the request in status `completed`, not `processing`, directly from the push
acceptance with no callback involved. -/
theorem C2_counterexample_push_marks_completed :
    (MpesaPaymentService.process_stk_push sampleRequest sampleTxn
      acceptResponse 100).1.status = "completed" ∧
    (MpesaPaymentService.process_stk_push sampleRequest sampleTxn
      acceptResponse 100).1.status ≠ "processing" := by decide

/-- C2 amended: on a transport-level acceptance (`ResponseCode = '0'`),
`process_stk_push` immediately marks the `PaymentRequest` `completed`
(storing the provider correlation ids from the push response) and sets the
giving transaction to `processing`; the request does not remain in status
`processing` awaiting a callback. -/
theorem C2_push_acceptance_completes (req : PaymentRequest)
    (txn : GivingTransaction) (response : JVal) (now : Nat)
    (hacc : response.getD "ResponseCode" .jnull = .jstr "0") :
    (MpesaPaymentService.process_stk_push req txn response now).1.status =
      "completed" ∧
    (MpesaPaymentService.process_stk_push req txn response now).1.checkout_request_id =
      response.getStrD "CheckoutRequestID" "" ∧
    (MpesaPaymentService.process_stk_push req txn response now).1.merchant_request_id =
      response.getStrD "MerchantRequestID" "" ∧
    (MpesaPaymentService.process_stk_push req txn response now).2.status =
      "processing" := by
  unfold MpesaPaymentService.process_stk_push
  simp [hacc, PaymentRequest.mark_processing, PaymentRequest.mark_completed]

/-- Witness for C2 amended at the concrete acceptance response. -/
theorem C2_push_acceptance_completes_witness :
    (MpesaPaymentService.process_stk_push sampleRequest sampleTxn
      acceptResponse 100).1.status = "completed" ∧
    (MpesaPaymentService.process_stk_push sampleRequest sampleTxn
      acceptResponse 100).1.checkout_request_id =
      acceptResponse.getStrD "CheckoutRequestID" "" ∧
    (MpesaPaymentService.process_stk_push sampleRequest sampleTxn
      acceptResponse 100).1.merchant_request_id =
      acceptResponse.getStrD "MerchantRequestID" "" ∧
    (MpesaPaymentService.process_stk_push sampleRequest sampleTxn
      acceptResponse 100).2.status = "processing" :=
  C2_push_acceptance_completes sampleRequest sampleTxn acceptResponse 100
    (by decide)

/-- C3 (code bug): a `PaymentRequest` in status `pending` is never retryable
through `PaymentService.retry_payment` — `can_retry()` requires status
`failed` or `expired` — so the retry sweep, which selects exactly the
`pending` rows with `next_retry_at <= now`, has its retry call rejected and
leaves every selected row unchanged instead of re-initiating the push. -/
theorem C3_retry_sweep_rejects_pending (req : PaymentRequest)
    (txn : GivingTransaction) (response : JVal) (now : Nat)
    (hp : req.status = "pending") :
    PaymentService.retry_payment req txn response now =
      .error "Payment cannot be retried" ∧
    PaymentSchedulerService.processPendingStep now response (req, txn) =
      (req, txn) := by
  have hc : req.can_retry = false := by
    simp [PaymentRequest.can_retry, hp]
  have herr : PaymentService.retry_payment req txn response now =
      .error "Payment cannot be retried" := by
    unfold PaymentService.retry_payment
    simp [hc]
  refine ⟨herr, ?_⟩
  unfold PaymentSchedulerService.processPendingStep
  rw [herr]
  split <;> rfl

/-- Witness for C3 at a concrete pending row that is due for retry. -/
theorem C3_retry_sweep_rejects_pending_witness :
    (PaymentService.retry_payment dueRequest sampleTxn acceptResponse 100 =
      .error "Payment cannot be retried" ∧
    PaymentSchedulerService.processPendingStep 100 acceptResponse
      (dueRequest, sampleTxn) = (dueRequest, sampleTxn)) ∧
    dueRequest.status = "pending" ∧ dueRequest.next_retry_at = some 0 :=
  ⟨C3_retry_sweep_rejects_pending dueRequest sampleTxn acceptResponse 100 rfl,
   rfl, rfl⟩

/-- C5: `PaymentService.process_callback` persists the `PaymentCallback` row
carrying the verbatim raw payload on every path — also when correlation finds
no matching request or when the settlement step records a failure — and the
row it returns is the persisted one. -/
theorem C5_callback_persisted_before_processing (db : EngineDB)
    (callback_data : JVal) (provider : String) (now : Nat) :
    (PaymentService.process_callback db callback_data provider now).2 ∈
      (PaymentService.process_callback db callback_data provider now).1.callbacks ∧
    (PaymentService.process_callback db callback_data provider now).2.raw_data =
      callback_data := by
  unfold PaymentService.process_callback
  dsimp only
  repeat' split
  all_goals
    simp [process_payment_callback_raw_data]

/-- C6: `schedule_retry` increments `retry_count`, returns the request to
`pending`, and sets `next_retry_at` to now plus the backoff delay from
`[1, 5, 15]` minutes indexed by `min(retry_count - 1, 2)` on the incremented
count, so the first three (and all later) retries are delayed 1, 5, 15, 15
minutes. -/
theorem C6_schedule_retry_backoff (r : PaymentRequest) (now : Nat) :
    (r.schedule_retry now).retry_count = r.retry_count + 1 ∧
    (r.schedule_retry now).status = "pending" ∧
    (r.schedule_retry now).next_retry_at =
      some (now + 60 * retryDelays.getD (min r.retry_count 2) 0) ∧
    retryDelays.getD (min 0 2) 0 = 1 ∧
    retryDelays.getD (min 1 2) 0 = 5 ∧
    retryDelays.getD (min 2 2) 0 = 15 ∧
    retryDelays.getD (min 7 2) 0 = 15 := by
  refine ⟨rfl, rfl, rfl, by decide, by decide, by decide, by decide⟩

/-- A completed giving transaction of amount 500 (eligible for reversal). -/
def reversedTxn : GivingTransaction :=
  { sampleTxn with status := "completed" }

/-- A previously completed reversal of the full 500 against `reversedTxn`. -/
def priorReversal : PaymentReversal :=
  { reversal_id := "R1",
    reversal_type := "refund",
    amount := 500,
    reason := "duplicate charge",
    status := "completed",
    reversal_transaction_id := "REV_R1",
    processor_response := "",
    processed_at := some 50 }

/-- A successful provider status-query response. -/
def statusOkResponse : JVal :=
  JVal.objOf
    [("ResultCode", .jstr "0"),
     ("MpesaReceiptNumber", .jstr "MPE123")]

/-- A payload whose `CheckoutRequestID` matches no stored request. -/
def unmatchedPayload : JVal :=
  JVal.objOf [("CheckoutRequestID", .jstr "NOPE")]

/-- C4 (code bug): `PaymentService.reverse_payment` performs no validation of
the requested amount against the transaction's original amount or its prior
completed reversals: every M-Pesa reversal request is created and immediately
processed to `completed`, adding its full amount to the completed-reversal
sum. -/
theorem C4_reverse_payment_no_validation (ctx : ReversalCtx) (amount : Int)
    (reason rid : String) (now : Nat)
    (hm : ctx.txn.payment_method = "mpesa") :
    completedReversalSum
        (PaymentService.reverse_payment ctx amount reason rid now).reversals =
      completedReversalSum ctx.reversals + amount ∧
    (PaymentService.reverse_payment ctx amount reason rid now).reversals.head?.map
        PaymentReversal.status = some "completed" := by
  unfold PaymentService.reverse_payment MpesaPaymentService.process_reversal
  dsimp only
  constructor
  · simp [hm, completedReversalSum, PaymentReversal.mark_completed, add_comm]
  · simp [hm, PaymentReversal.mark_completed]

/-- Witness for C4 at the claim's failing input: a transaction of amount 500
already fully reversed accepts a further reversal of 100, driving the
completed-reversal sum to 600 > 500. -/
theorem C4_reverse_payment_no_validation_witness :
    (completedReversalSum
        (PaymentService.reverse_payment ⟨reversedTxn, [priorReversal]⟩ 100
          "charge dispute" "R2" 60).reversals =
      completedReversalSum [priorReversal] + 100 ∧
    (PaymentService.reverse_payment ⟨reversedTxn, [priorReversal]⟩ 100
        "charge dispute" "R2" 60).reversals.head?.map PaymentReversal.status =
      some "completed") ∧
    completedReversalSum [priorReversal] + 100 = 600 ∧
    reversedTxn.amount = 500 ∧ (500 : Int) < 600 :=
  ⟨C4_reverse_payment_no_validation ⟨reversedTxn, [priorReversal]⟩ 100
      "charge dispute" "R2" 60 rfl,
   by decide, rfl, by decide⟩

/-- `process_stk_push` never touches the retry counters. -/
theorem process_stk_push_retry_fields (req : PaymentRequest)
    (txn : GivingTransaction) (response : JVal) (now : Nat) :
    (MpesaPaymentService.process_stk_push req txn response now).1.retry_count =
      req.retry_count ∧
    (MpesaPaymentService.process_stk_push req txn response now).1.max_retries =
      req.max_retries := by
  unfold MpesaPaymentService.process_stk_push
  dsimp only
  split <;> exact ⟨rfl, rfl⟩

/-- Each engine operation keeps `max_retries` and either keeps `retry_count`
or increments it by one from a state where `retry_count < max_retries` (the
`can_retry()` guard of `retry_payment`). -/
theorem engineStep_retry_fields (s : PaymentRequest × GivingTransaction)
    (op : EngineOp) :
    (engineStep s op).1.max_retries = s.1.max_retries ∧
    ((engineStep s op).1.retry_count = s.1.retry_count ∨
      (s.1.retry_count < s.1.max_retries ∧
        (engineStep s op).1.retry_count = s.1.retry_count + 1)) := by
  cases op with
  | push response now =>
    exact ⟨(process_stk_push_retry_fields s.1 s.2 response now).2,
      Or.inl (process_stk_push_retry_fields s.1 s.2 response now).1⟩
  | retryOp response now =>
    have hgoal : engineStep s (.retryOp response now) =
        (match PaymentService.retry_payment s.1 s.2 response now with
         | .ok u => u
         | .error _ => s) := rfl
    rw [hgoal]
    cases hval : PaymentService.retry_payment s.1 s.2 response now with
    | error e => exact ⟨rfl, Or.inl rfl⟩
    | ok u =>
      unfold PaymentService.retry_payment at hval
      by_cases hc : s.1.can_retry = true
      · have hlt : s.1.retry_count < s.1.max_retries := by
          simp only [PaymentRequest.can_retry, Bool.and_eq_true,
            decide_eq_true_eq] at hc
          exact hc.2
        by_cases hm : (s.2.payment_method == "mpesa") = true
        · simp only [hc, Bool.not_true, Bool.false_eq_true, if_false, hm,
            if_true, Except.ok.injEq] at hval
          rw [← hval]
          refine ⟨?_, Or.inr ⟨hlt, ?_⟩⟩
          · exact (process_stk_push_retry_fields (s.1.schedule_retry now) s.2
              response now).2
          · exact (process_stk_push_retry_fields (s.1.schedule_retry now) s.2
              response now).1
        · simp only [hc, Bool.not_true, Bool.false_eq_true, if_false, hm,
            Except.ok.injEq] at hval
          rw [← hval]
          exact ⟨rfl, Or.inr ⟨hlt, rfl⟩⟩
      · have hc2 : s.1.can_retry = false := by
          cases h : s.1.can_retry
          · rfl
          · exact absurd h hc
        rw [hc2] at hval
        simp at hval
  | settleCallback cb now =>
    have hgoal : engineStep s (.settleCallback cb now) =
        ((MpesaPaymentService.process_payment_callback ⟨cb, s.1, s.2⟩ now).request,
         (MpesaPaymentService.process_payment_callback ⟨cb, s.1, s.2⟩ now).txn) := rfl
    rw [hgoal]
    refine ⟨?_, Or.inl ?_⟩ <;>
    · unfold MpesaPaymentService.process_payment_callback
      dsimp only
      split <;> rfl
  | reconcile response now =>
    have hgoal : engineStep s (.reconcile response now) =
        PaymentSchedulerService.checkStatusStep now response s := rfl
    rw [hgoal]
    unfold PaymentSchedulerService.checkStatusStep
    refine ⟨?_, Or.inl ?_⟩ <;>
    · repeat' split
      all_goals rfl

/-- C7: across every sequence of engine operations, `retry_count` never
exceeds `max_retries` (starting from any state satisfying the invariant), and
once `retry_count` equals `max_retries` no operation changes either counter
and `can_retry()` is false permanently. -/
theorem C7_retry_budget_invariant (ops : List EngineOp)
    (s : PaymentRequest × GivingTransaction)
    (hinv : s.1.retry_count ≤ s.1.max_retries) :
    (engineRun s ops).1.retry_count ≤ (engineRun s ops).1.max_retries ∧
    (s.1.retry_count = s.1.max_retries →
      (engineRun s ops).1.retry_count = s.1.retry_count ∧
      (engineRun s ops).1.max_retries = s.1.max_retries ∧
      (engineRun s ops).1.can_retry = false) := by
  induction ops generalizing s with
  | nil =>
    refine ⟨hinv, fun he => ⟨rfl, rfl, ?_⟩⟩
    simp [engineRun, List.foldl, PaymentRequest.can_retry, he]
  | cons op rest ih =>
    have hstep := engineStep_retry_fields s op
    have hinv2 : (engineStep s op).1.retry_count ≤
        (engineStep s op).1.max_retries := by
      rcases hstep.2 with h | ⟨hlt, h⟩ <;> rw [h, hstep.1] <;> omega
    have hrun : engineRun s (op :: rest) = engineRun (engineStep s op) rest := rfl
    rw [hrun]
    refine ⟨(ih (engineStep s op) hinv2).1, fun he => ?_⟩
    have heq : (engineStep s op).1.retry_count = s.1.retry_count := by
      rcases hstep.2 with h | ⟨hlt, h⟩
      · exact h
      · omega
    have he2 : (engineStep s op).1.retry_count =
        (engineStep s op).1.max_retries := by
      rw [heq, hstep.1, he]
    obtain ⟨h1, h2, h3⟩ := (ih (engineStep s op) hinv2).2 he2
    exact ⟨by rw [h1, heq], by rw [h2, hstep.1], h3⟩

/-- Witness for C7: a request that has exhausted its three retries stays
exhausted and non-retryable across a retry attempt, a push and a
reconciliation. -/
theorem C7_retry_budget_invariant_witness :
    (engineRun ({ sampleRequest with status := "failed", retry_count := 3 },
        sampleTxn)
      [.retryOp acceptResponse 10, .push acceptResponse 20,
       .reconcile statusOkResponse 30]).1.retry_count = 3 ∧
    (engineRun ({ sampleRequest with status := "failed", retry_count := 3 },
        sampleTxn)
      [.retryOp acceptResponse 10, .push acceptResponse 20,
       .reconcile statusOkResponse 30]).1.can_retry = false := by
  have h := C7_retry_budget_invariant
    [.retryOp acceptResponse 10, .push acceptResponse 20,
     .reconcile statusOkResponse 30]
    ({ sampleRequest with status := "failed", retry_count := 3 }, sampleTxn)
    (by decide)
  exact ⟨(h.2 rfl).1, (h.2 rfl).2.2⟩

/-- C8: a request stale in `processing` (started more than 30 minutes ago)
whose status query reports success has its giving transaction marked
completed with the provider receipt by `check_transaction_status`, the
request row itself is untouched, and a second sweep run leaves the store
exactly as after the first (the transaction is completed once). -/
theorem C8_reconciliation_completes_once (req : PaymentRequest)
    (txn : GivingTransaction) (response : JVal) (t now1 now2 : Nat)
    (hst : req.status = "processing")
    (hts : req.processing_started_at = some t)
    (h1 : t + 1800 ≤ now1) (h2 : t + 1800 ≤ now2)
    (hok : response.getD "ResultCode" .jnull = .jstr "0") :
    PaymentSchedulerService.check_transaction_status now1 response [(req, txn)] =
      [(req, txn.mark_completed (response.getD "MpesaReceiptNumber" (.jstr "")))] ∧
    PaymentSchedulerService.check_transaction_status now2 response
        (PaymentSchedulerService.check_transaction_status now1 response
          [(req, txn)]) =
      PaymentSchedulerService.check_transaction_status now1 response
        [(req, txn)] := by
  have hone : PaymentSchedulerService.check_transaction_status now1 response
      [(req, txn)] =
      [(req, txn.mark_completed (response.getD "MpesaReceiptNumber" (.jstr "")))] := by
    unfold PaymentSchedulerService.check_transaction_status
      PaymentSchedulerService.checkStatusStep
    simp [hst, hts, h1, hok]
  refine ⟨hone, ?_⟩
  rw [hone]
  unfold PaymentSchedulerService.check_transaction_status
    PaymentSchedulerService.checkStatusStep
  simp [hst, hts, h2, hok, GivingTransaction.mark_completed]

/-- Witness for C8: the claim's scenario — stuck in `processing` for 31
minutes, provider reports success on the status query. -/
theorem C8_reconciliation_completes_once_witness :
    PaymentSchedulerService.check_transaction_status 1860 statusOkResponse
        [(matchedRequest, processingTxn)] =
      [(matchedRequest, processingTxn.mark_completed
        (statusOkResponse.getD "MpesaReceiptNumber" (.jstr "")))] ∧
    PaymentSchedulerService.check_transaction_status 3700 statusOkResponse
        (PaymentSchedulerService.check_transaction_status 1860 statusOkResponse
          [(matchedRequest, processingTxn)]) =
      PaymentSchedulerService.check_transaction_status 1860 statusOkResponse
        [(matchedRequest, processingTxn)] :=
  C8_reconciliation_completes_once matchedRequest processingTxn
    statusOkResponse 0 1860 3700 rfl rfl (by decide) (by decide) (by decide)

/-- C9 counterexample: a concrete M-Pesa payload missing the required
`STKCallback` object is ingested with `is_valid = true` and still produces a
financial effect: the correlated giving transaction is marked `failed`. -/
theorem C9_counterexample_is_valid_unchecked :
    (PaymentService.process_callback sampleDB noStkPayload "mpesa" 100).2.is_valid
      = true ∧
    ((PaymentService.process_callback sampleDB noStkPayload "mpesa" 100).1.rows.map
      (fun row => row.2.status)) = ["failed"] := by decide

/-- C9 amended: for the M-Pesa provider, ingestion sets `is_valid = true`
unconditionally — no structural check of the payload is performed; a callback
that cannot be correlated to a `PaymentRequest` is marked status `invalid`
and has no financial effect (the stored rows are unchanged), but its
`is_valid` flag still reads true. -/
theorem C9_mpesa_validation_unconditional (db : EngineDB)
    (callback_data : JVal) (now : Nat) :
    (PaymentService.process_callback db callback_data "mpesa" now).2.is_valid
      = true ∧
    (correlateRequest db.rows callback_data = none →
      (PaymentService.process_callback db callback_data "mpesa" now).1.rows
        = db.rows ∧
      (PaymentService.process_callback db callback_data "mpesa" now).2.status
        = "invalid") := by
  unfold PaymentService.process_callback
  dsimp only
  cases hcor : correlateRequest db.rows callback_data with
  | none => simp
  | some i =>
    cases hget : db.rows[i]? with
    | none => simp [hget]
    | some row => simp [hget, process_payment_callback_is_valid]

/-- Witness for C9 amended at a concrete uncorrelatable payload. -/
theorem C9_mpesa_validation_unconditional_witness :
    (PaymentService.process_callback sampleDB unmatchedPayload "mpesa" 100).2.is_valid
      = true ∧
    (PaymentService.process_callback sampleDB unmatchedPayload "mpesa" 100).1.rows
      = sampleDB.rows ∧
    (PaymentService.process_callback sampleDB unmatchedPayload "mpesa" 100).2.status
      = "invalid" :=
  ⟨(C9_mpesa_validation_unconditional sampleDB unmatchedPayload 100).1,
   (C9_mpesa_validation_unconditional sampleDB unmatchedPayload 100).2 (by decide)⟩

/-- C10 counterexample: a payload whose `STKCallback.ResultCode` is the JSON
boolean `false` — not the integer `0` — still takes the success path
(Python's `==` treats `False` as equal to `0`), marking the giving
transaction completed instead of failed. -/
theorem C10_counterexample_bool_false_succeeds :
    (MpesaPaymentService.process_payment_callback
      ⟨receivedCallback boolFalsePayload, matchedRequest, processingTxn⟩
      100).txn.status = "completed" ∧
    ((boolFalsePayload.getD "STKCallback" (JVal.objOf [])).getD "ResultCode"
      .jnull) ≠ .jint 0 := by decide

/-- C10 amended: the success path of the M-Pesa settlement is taken exactly
when `STKCallback.ResultCode` compares equal to `0` under Python `==` — the
integer `0` or the boolean `false`; every other value (a missing
`STKCallback`, a missing `ResultCode`, the string `"0"`, ...) takes the
failure path, marking the giving transaction failed with the payload's
`ResultDesc`. -/
theorem C10_result_code_discrimination (cb : PaymentCallback)
    (req : PaymentRequest) (txn : GivingTransaction) (now : Nat) :
    ((MpesaPaymentService.process_payment_callback ⟨cb, req, txn⟩ now).txn.status
        = "completed" ↔
      pyEqZero ((cb.raw_data.getD "STKCallback" (JVal.objOf [])).getD
        "ResultCode" .jnull) = true) ∧
    (pyEqZero ((cb.raw_data.getD "STKCallback" (JVal.objOf [])).getD
        "ResultCode" .jnull) = false →
      (MpesaPaymentService.process_payment_callback ⟨cb, req, txn⟩ now).txn =
        txn.mark_failed ((cb.raw_data.getD "STKCallback" (JVal.objOf [])).getD
          "ResultDesc" .jnull)) ∧
    pyEqZero (.jint 0) = true ∧
    pyEqZero (.jbool false) = true ∧
    pyEqZero (.jstr "0") = false ∧
    pyEqZero .jnull = false := by
  refine ⟨?_, ?_, by decide, by decide, by decide, by decide⟩ <;>
  · unfold MpesaPaymentService.process_payment_callback
    dsimp only
    by_cases h : pyEqZero ((cb.raw_data.getD "STKCallback"
        (JVal.objOf [])).getD "ResultCode" JVal.jnull) = true <;>
      simp [h, GivingTransaction.mark_completed, GivingTransaction.mark_failed]

/-- Witness for C10 amended: the integer result code 0 completes the
transaction; the integer result code 1032 fails it with the payload's
`ResultDesc`. -/
theorem C10_result_code_discrimination_witness :
    (MpesaPaymentService.process_payment_callback
      ⟨receivedCallback successPayload, matchedRequest, processingTxn⟩
      100).txn.status = "completed" ∧
    (MpesaPaymentService.process_payment_callback
      ⟨receivedCallback cancelPayload, matchedRequest, processingTxn⟩
      100).txn = processingTxn.mark_failed (.jstr "Request cancelled by user") :=
  ⟨(C10_result_code_discrimination (receivedCallback successPayload)
      matchedRequest processingTxn 100).1.mpr (by decide),
   (C10_result_code_discrimination (receivedCallback cancelPayload)
      matchedRequest processingTxn 100).2.1 (by decide)⟩

end AltarFunds
